import Mathlib

/-!
# Verification of the SIS2 Tumblr ETL pipeline

Shallow embedding of the cleaning pipeline (`src/cleaner.py`), the relational
loader (`src/loader.py`) and the validation gate (`airflow_dag.py`) of the
rizetap/SIS2 repository, together with proofs and refutations of the frozen
specification claims.

Modelling conventions:
* A pandas DataFrame is a `List` of records; column-wise pandas operations
  are row-wise maps/filters (they act independently per row).
* `NaN` cells are `Option.none`; `str(x)` applied to a `NaN` yields the
  Python string `"nan"`.
* Python's `\s` / `str.strip()` whitespace set is modelled at its ASCII core
  (space, tab, newline, carriage return, vertical tab, form feed); `lower()`
  and `\w` are likewise modelled on their ASCII core.
* The `tags` CSV cell holds a Python string; `count_tags` / `tags_to_string`
  dispatch on whether it is missing, a bracketed list literal (decoded with
  `eval`), some other string, or a bracketed string whose `eval` raises.  The
  cell is embedded as the inductive `TagsCell` carrying the decoded list in
  the literal case.
* Exact rational arithmetic stands in for Python float division in the
  validator's quality ratio.
-/

namespace SIS2

/-! ## Python string primitives -/

/-- ASCII core of Python's whitespace class `\s` (also the set stripped by
`str.strip()`): space, tab, newline, carriage return, vertical tab, form
feed. -/
def isPySpace (c : Char) : Bool :=
  c = ' ' || c = '\t' || c = '\n' || c = '\r' || c = '\x0b' || c = '\x0c'

/-- `str.strip()`: drop leading and trailing whitespace. -/
def pyStripList (l : List Char) : List Char :=
  ((l.dropWhile isPySpace).reverse.dropWhile isPySpace).reverse

def pyStrip (s : String) : String :=
  ⟨pyStripList s.data⟩

/-- `re.sub(r'\s+', ' ', s)`: replace each maximal whitespace run by a single
space. -/
def collapseWsList : List Char → List Char
  | [] => []
  | c :: cs =>
    if isPySpace c then
      match cs with
      | [] => [' ']
      | c2 :: _ => if isPySpace c2 then collapseWsList cs else ' ' :: collapseWsList cs
    else c :: collapseWsList cs

def collapseWs (s : String) : String :=
  ⟨collapseWsList s.data⟩

/-- `str(x)` on a possibly-NaN cell: pandas `NaN` prints as `"nan"`. -/
def pyStr : Option String → String
  | none => "nan"
  | some s => s

/-- Number of fields of Python `s.split()` (split on whitespace runs,
ignoring leading/trailing whitespace): counted with an in-word flag. -/
def countWordsGo : List Char → Bool → Nat
  | [], _ => 0
  | c :: cs, inWord =>
    if isPySpace c then countWordsGo cs false
    else (if inWord then 0 else 1) + countWordsGo cs true

/-- `len(str(x).split())` for a string `x`. -/
def wordCount (s : String) : Nat :=
  countWordsGo s.data false

/-! ## URL stripping (`re.sub` with the cleaner's URL regex)

The regex is `http[s]?://(?:[a-zA-Z]|[0-9]|[$-_@.&+]|[!*\\(\\),]|(?:%[0-9a-fA-F][0-9a-fA-F]))+`.
Its alternation of one-character classes is the union of lowercase letters,
the ASCII range `$` (0x24) … `_` (0x5F) (which already contains uppercase
letters, digits, and most punctuation of the other classes), `!` and `\`:
after the scheme, the regex greedily consumes the longest nonempty run of
such characters. -/

/-- Characters matched by the URL regex's repeated group. -/
def isUrlChar (c : Char) : Bool :=
  ('a' ≤ c && c ≤ 'z') || (0x24 ≤ c.toNat && c.toNat ≤ 0x5F) || c = '!'

/-- Match a literal character prefix, returning the remainder. -/
def dropPrefixChars : List Char → List Char → Option (List Char)
  | [], l => some l
  | _ :: _, [] => none
  | a :: p, b :: l => if a = b then dropPrefixChars p l else none

/-- Try to match the URL regex at the head of `l`: scheme `https://` (the
greedy `[s]?`) or `http://`, then a nonempty run of `isUrlChar`; returns the
remainder after the match. -/
def matchUrl (l : List Char) : Option (List Char) :=
  let afterScheme :=
    match dropPrefixChars "https://".data l with
    | some rest => some rest
    | none => dropPrefixChars "http://".data l
  match afterScheme with
  | none => none
  | some rest =>
    match rest.span isUrlChar with
    | (run, rest2) => if run.isEmpty then none else some rest2

/-- Left-to-right scan of `re.sub(urlRegex, '', s)`, fuelled by the input
length (each step consumes at least one character). -/
def removeUrlsGo : Nat → List Char → List Char
  | 0, l => l
  | _ + 1, [] => []
  | fuel + 1, c :: cs =>
    match matchUrl (c :: cs) with
    | some rest => removeUrlsGo fuel rest
    | none => c :: removeUrlsGo fuel cs

def removeUrls (s : String) : String :=
  ⟨removeUrlsGo s.data.length s.data⟩

/-- The ASCII core of `\w`: letters, digits, underscore. -/
def isWordChar (c : Char) : Bool :=
  c.isAlphanum || c = '_'

/-- Characters kept by `re.sub(r'[^\w\s.,!?;:\'-]', '', s)`. -/
def isAllowedChar (c : Char) : Bool :=
  isWordChar c || isPySpace c || c = '.' || c = ',' || c = '!' || c = '?' ||
    c = ';' || c = ':' || c = '\'' || c = '-'

def filterAllowed (s : String) : String :=
  ⟨s.data.filter isAllowedChar⟩

/-- `pd.to_datetime(ts).dt.date` on the producer's ISO-8601 timestamps:
the calendar-date part before the time separator.  (Date arithmetic itself
is irrelevant to every claim; the date is carried as its string form.) -/
def toDate (ts : String) : String :=
  ⟨ts.data.takeWhile (fun c => c ≠ 'T' && c ≠ ' ')⟩

/-! ## Data model (`src/cleaner.py`)

The `tags` CSV cell, as seen by `count_tags`, `tags_to_string`
(cleaner.py 76-101) and `load_tags` (loader.py 112-147). -/

/-- A raw `tags` cell.  `listLit ts` is a string starting with `[` whose
`eval` yields the list of strings `ts` (the literal string `'[]'` is
`listLit []`); `delimited s` is any other string; `malformed` is a string
starting with `[` whose `eval` raises. -/
inductive TagsCell where
  | nan : TagsCell
  | listLit (ts : List String) : TagsCell
  | delimited (s : String) : TagsCell
  | malformed : TagsCell
deriving DecidableEq, Repr

/-- A row of the raw CSV (`data/tumblr_posts.csv`), scraper-produced:
cells other than `post_url` and `timestamp` may be missing. -/
structure RawRecord where
  post_url : String
  post_text : Option String
  post_type : Option String
  notes_count : Option Int
  image_url : Option String
  tags : TagsCell
  timestamp : String
deriving DecidableEq, Repr

/-- A row after `handle_missing_values` (cleaner.py 55-64): defaults
filled in. -/
structure FilledRecord where
  post_url : String
  post_text : Option String
  post_type : String
  notes_count : Int
  image_url : String
  tags : TagsCell
  timestamp : String
deriving DecidableEq, Repr

/-- A row after `clean_text` (cleaner.py 36-53): `post_text` whitespace
normalised in place, `post_text_clean` added. -/
structure TextRecord where
  post_url : String
  post_text : Option String
  post_text_clean : String
  post_type : String
  notes_count : Int
  image_url : String
  tags : TagsCell
  timestamp : String
deriving DecidableEq, Repr

/-- A fully cleaned row, after `add_derived_features`
(cleaner.py 66-115). -/
structure CleanRecord where
  post_url : String
  post_text : Option String
  post_text_clean : String
  post_type : String
  notes_count : Int
  image_url : String
  tags : TagsCell
  timestamp : String
  word_count : Nat
  char_count : Nat
  has_image : Nat
  tag_count : Nat
  tags_str : String
  engagement_level : String
  scrape_date : String
deriving DecidableEq, Repr

/-! ## Cleaning steps (`DataCleaner`, `src/cleaner.py`) -/

/-- `drop_duplicates(subset=['post_url'], keep='first')` scan with the set
of already-seen keys (cleaner.py 21-26). -/
def dropDuplicatesGo : List RawRecord → List String → List RawRecord
  | [], _ => []
  | r :: rs, seen =>
    if r.post_url ∈ seen then dropDuplicatesGo rs seen
    else r :: dropDuplicatesGo rs (r.post_url :: seen)

/-- `remove_duplicates` (cleaner.py 21-26): first occurrence of each
`post_url` wins. -/
def removeDuplicates (rs : List RawRecord) : List RawRecord :=
  dropDuplicatesGo rs []

/-- `remove_empty_posts` (cleaner.py 28-34): keep rows whose `post_text`
is present (`notna`) and of positive length. -/
def removeEmptyPosts (rs : List RawRecord) : List RawRecord :=
  rs.filter fun r =>
    match r.post_text with
    | none => false
    | some t => t.length > 0

/-- `handle_missing_values` (cleaner.py 55-64), on one row: `notes_count`
NaN → 0 (then `astype(int)`), `post_type` NaN → `'unknown'`, `image_url`
NaN → `''`, `tags` NaN → the string `'[]'`. -/
def handleMissingValues (r : RawRecord) : FilledRecord :=
  { post_url := r.post_url
    post_text := r.post_text
    post_type := r.post_type.getD "unknown"
    notes_count := r.notes_count.getD 0
    image_url := r.image_url.getD ""
    tags := match r.tags with | .nan => .listLit [] | t => t
    timestamp := r.timestamp }

/-- `clean_text` (cleaner.py 36-53), on one row: `post_text` is stripped
and whitespace-collapsed in place (NaN-propagating `.str` operations);
`post_text_clean` is derived from it by URL removal, the allowed-character
filter, and a final strip-and-collapse (`apply` turns a NaN into the
string `"nan"`). -/
def cleanTextRow (r : FilledRecord) : TextRecord :=
  let t := (r.post_text.map pyStrip).map collapseWs
  let c0 := removeUrls (pyStr t)
  let c1 := filterAllowed c0
  let c2 := collapseWs (pyStrip c1)
  { post_url := r.post_url
    post_text := t
    post_text_clean := c2
    post_type := r.post_type
    notes_count := r.notes_count
    image_url := r.image_url
    tags := r.tags
    timestamp := r.timestamp }

/-- The synonym table of `standardize_post_types` (cleaner.py 135-141). -/
def typeMapping (s : String) : String :=
  if s = "image" then "photo"
  else if s = "picture" then "photo"
  else if s = "pic" then "photo"
  else if s = "txt" then "text"
  else if s = "quotation" then "quote"
  else s

/-- `standardize_post_types` (cleaner.py 129-143), on one row: lowercase,
then map known synonyms. -/
def standardizePostTypes (r : TextRecord) : TextRecord :=
  { r with post_type := typeMapping r.post_type.toLower }

/-- `count_tags` (cleaner.py 76-85): NaN or the literal `'[]'` → 0; a
bracketed literal → the length of the decoded list; any other string, or a
failing `eval` → 0. -/
def count_tags : TagsCell → Nat
  | .nan => 0
  | .listLit ts => ts.length
  | .delimited _ => 0
  | .malformed => 0

/-- `tags_to_string` (cleaner.py 89-99): a bracketed literal is rendered
`', '.join(...)` of its elements verbatim; everything else → `''`. -/
def tags_to_string : TagsCell → String
  | .listLit ts => String.intercalate ", " ts
  | _ => ""

/-- `categorize_engagement` (cleaner.py 103-111). -/
def categorize_engagement (notes : Int) : String :=
  if notes = 0 then "no_engagement"
  else if notes < 10 then "low"
  else if notes < 100 then "medium"
  else "high"

/-- `add_derived_features` (cleaner.py 66-115), on one row. -/
def addDerivedFeatures (r : TextRecord) : CleanRecord :=
  { post_url := r.post_url
    post_text := r.post_text
    post_text_clean := r.post_text_clean
    post_type := r.post_type
    notes_count := r.notes_count
    image_url := r.image_url
    tags := r.tags
    timestamp := r.timestamp
    word_count := wordCount (pyStr r.post_text)
    char_count := (pyStr r.post_text).length
    has_image := if (r.image_url).length > 0 then 1 else 0
    tag_count := count_tags r.tags
    tags_str := tags_to_string r.tags
    engagement_level := categorize_engagement r.notes_count
    scrape_date := toDate r.timestamp }

/-- `filter_quality_posts` (cleaner.py 117-127): keep rows with
`min_word_count ≤ word_count ≤ max_word_count`. -/
def filterQualityPosts (minWc maxWc : Nat) (rs : List CleanRecord) : List CleanRecord :=
  rs.filter fun r => minWc ≤ r.word_count && r.word_count ≤ maxWc

/-- `clean_all` (cleaner.py 145-177), with the default quality bounds of
`filter_quality_posts` (5 and 10000): the seven steps in the code's order.
(The step-count warning at 172-175 only prints; it does not change the
result.) -/
def clean_all (rs : List RawRecord) : List CleanRecord :=
  let df := rs
  let df := removeDuplicates df
  let df := removeEmptyPosts df
  let df := df.map handleMissingValues
  let df := df.map cleanTextRow
  let df := df.map standardizePostTypes
  let df := df.map addDerivedFeatures
  filterQualityPosts 5 10000 df

/-! ## Column-presence behaviour of the cleaner

`DataCleaner` indexes columns directly (`self.df['tags'] = ...`); pandas
raises `KeyError` when the indexed column is absent from the CSV.  The
`tags` column is first touched by `handle_missing_values`
(cleaner.py 64), after duplicates and empty posts were removed. -/

/-- A raw CSV together with whether it has a `tags` column at all (when it
does not, the per-row `tags` cells are `NaN` placeholders that the real
DataFrame simply would not carry). -/
structure RawTable where
  hasTagsColumn : Bool
  rows : List RawRecord
deriving Repr

/-- `clean_all` at table level: steps 1-2 touch only `post_url` and
`post_text`; step 3 (`handle_missing_values`) evaluates
`self.df['tags'].fillna('[]')`, which raises `KeyError: 'tags'` when the
column is absent, aborting the run. -/
def clean_all_table (t : RawTable) : Except String (List CleanRecord) :=
  let df := removeDuplicates t.rows
  let df := removeEmptyPosts df
  if t.hasTagsColumn then
    let df := df.map handleMissingValues
    let df := df.map cleanTextRow
    let df := df.map standardizePostTypes
    let df := df.map addDerivedFeatures
    .ok (filterQualityPosts 5 10000 df)
  else
    .error "KeyError: tags"

/-! ## The spec's stated step order (refinement comparison for C1)

Modelled from the spec: §4.3 prescribes "(1) drop empty-text records,
(2) deduplicate by URL keeping the first, (3) apply missing-value
defaults, (4) text cleanup, (5) post-type standardization, (6)
derived-feature computation, (7) word-count band filter".  This variant
performs the code's steps in that order, to be compared with
`clean_all`. -/
def cleanAllSpecOrder (rs : List RawRecord) : List CleanRecord :=
  let df := rs
  let df := removeEmptyPosts df
  let df := removeDuplicates df
  let df := df.map handleMissingValues
  let df := df.map cleanTextRow
  let df := df.map standardizePostTypes
  let df := df.map addDerivedFeatures
  filterQualityPosts 5 10000 df

/-! ## Relational store and loader (`src/loader.py`)

The store is the SQLite database `data/output.db`.  `create_tables`
(loader.py 19-73) creates `posts` with an `id INTEGER PRIMARY KEY` column,
but `load_posts` (loader.py 75-99) persists via
`to_sql('posts', ..., if_exists='replace')`, which drops that table and
recreates it from the DataFrame's columns alone — the recreated `posts`
table has NO `id` column.  `postsHasId` tracks which schema the `posts`
table currently has, since `load_tags` selects `id` from it. -/

structure Store where
  /-- Whether the current `posts` table carries the `id` column
  (`create_tables` schema) or the pandas-replaced schema without it. -/
  postsHasId : Bool
  /-- Rows of the `posts` table.  The cleaned snapshot row carries every
  persisted column; the loader projects `posts_columns` out of it, which
  does not change the row count. -/
  posts : List CleanRecord
  /-- `tags.tag_name` values, in insertion order, unique. -/
  tags : List String
  /-- `post_tags` rows `(post_id, tag_id)`, unique pairs. -/
  post_tags : List (Nat × Nat)
deriving Repr

/-- A store fresh after `connect` + `create_tables` on a new database
(loader.py 13-73): empty tables, `posts` still with its `id` column. -/
def freshStore : Store :=
  { postsHasId := true, posts := [], tags := [], post_tags := [] }

/-- `create_tables` (loader.py 19-73): `CREATE TABLE IF NOT EXISTS` is a
no-op on an existing store. -/
def create_tables (s : Store) : Store := s

/-- `load_posts` (loader.py 75-99): the `posts` table is replaced
wholesale by the snapshot's rows; `to_sql(..., if_exists='replace')` drops
the table first, so the replacement schema has no `id` column. -/
def load_posts (df : List CleanRecord) (s : Store) : Store :=
  { s with posts := df, postsHasId := false }

/-- `SELECT id FROM posts WHERE post_url = ?` (loader.py 123-124):
raises `OperationalError: no such column: id` when the `posts` table was
rebuilt by `to_sql`; otherwise returns the first matching rowid
(autoincrement ids are 1-based positions). -/
def lookupPostId (s : Store) (url : String) : Except Unit (Option Nat) :=
  if s.postsHasId then
    match s.posts.findIdx? (fun p => p.post_url = url) with
    | some i => .ok (some (i + 1))
    | none => .ok none
  else .error ()

/-- The tag list `load_tags` (loader.py 115-121) decodes from one row's
`tags` cell: a bracketed literal is `eval`'d, any other string is split on
`','` with each piece stripped; a failing `eval` raises (caught per-row).
`none` means the per-row `try` raised. -/
def decodeTagsCell : TagsCell → Option (List String)
  | .nan => some []
  | .listLit ts => some ts
  | .delimited s => some ((s.splitOn ",").map pyStrip)
  | .malformed => none

/-- One row of the `load_tags` loop (loader.py 112-147): rows with a NaN
or `'[]'` cell are skipped outright; otherwise tags are decoded, the post
id is looked up (a missing post, or the raised `no such column: id`, skips
the row), and each nonempty tag is trimmed, lowercased, upserted into
`tags`, and linked in `post_tags` with duplicates ignored. -/
def loadTagsRow (s : Store) (acc : List String × List (Nat × Nat))
    (row : CleanRecord) : List String × List (Nat × Nat) :=
  match row.tags with
  | .nan => acc
  | .listLit [] => acc
  | cell =>
    match decodeTagsCell cell with
    | none => acc
    | some tags =>
      match lookupPostId s row.post_url with
      | .error () => acc
      | .ok none => acc
      | .ok (some postId) =>
        tags.foldl
          (fun (acc : List String × List (Nat × Nat)) tag =>
            if tag.length > 0 && (pyStrip tag).length > 0 then
              let tag := (pyStrip tag).toLower
              let tagList :=
                if tag ∈ acc.1 then acc.1 else acc.1 ++ [tag]
              let tagId := (tagList.indexOf tag) + 1
              let links :=
                if (postId, tagId) ∈ acc.2 then acc.2 else acc.2 ++ [(postId, tagId)]
              (tagList, links)
            else acc)
          acc

/-- `load_tags` (loader.py 101-153): clear `post_tags` and `tags`, then
rebuild them from the snapshot's rows. -/
def load_tags (df : List CleanRecord) (s : Store) : Store :=
  let (tags, links) := df.foldl (loadTagsRow s) ([], [])
  { s with tags := tags, post_tags := links }

/-! ## Summary statistics (`generate_summary_statistics`, loader.py 155-192)

SQLite's `AVG` and `SUM` return `NULL` over an empty table, and the code
passes those `None`s straight into the insert; only `most_common_type`
gets the `'unknown'` default when the grouped query yields no row. -/

structure SummaryRow where
  total_posts : Nat
  avg_word_count : Option ℚ
  avg_notes : Option ℚ
  posts_with_images : Option Int
  most_common_type : String
deriving DecidableEq, Repr

/-- `SELECT post_type, COUNT(*) ... GROUP BY post_type ORDER BY count DESC
LIMIT 1` (loader.py 174-180): a post type of maximal multiplicity (SQLite
leaves ties unspecified; first-seen wins in the model), or `none` on an
empty table. -/
def mostCommonType (posts : List CleanRecord) : Option String :=
  (posts.map (·.post_type)).foldl
    (fun best t =>
      match best with
      | none => some t
      | some b =>
        if posts.countP (·.post_type = t) > posts.countP (·.post_type = b)
        then some t else some b)
    none

/-- `generate_summary_statistics` (loader.py 155-192): compute the
aggregates over the persisted `posts` table and append one row. -/
def generate_summary_statistics (posts : List CleanRecord) : SummaryRow :=
  { total_posts := posts.length
    avg_word_count :=
      if posts.length = 0 then none
      else some ((posts.map (fun p => (p.word_count : ℚ))).sum / posts.length)
    avg_notes :=
      if posts.length = 0 then none
      else some ((posts.map (fun p => (p.notes_count : ℚ))).sum / posts.length)
    posts_with_images :=
      if posts.length = 0 then none
      else some (posts.map (fun p => (p.has_image : Int))).sum
    most_common_type := (mostCommonType posts).getD "unknown" }

/-- `load_all` (loader.py 233-246): connect, create tables, load posts,
load tags, generate statistics (statistics rows only accumulate in their
own table and are not read back; the resulting store state is returned). -/
def load_all (df : List CleanRecord) (s : Store) : Store :=
  let s := create_tables s
  let s := load_posts df s
  let s := load_tags df s
  s

/-! ## Validation gate (`validate_pipeline`, airflow_dag.py 141-180) -/

/-- Outcome of a passing validation run. -/
structure ValidationResult where
  post_count : Nat
  tag_count : Nat
  /-- `quality_ratio = valid_posts / post_count if post_count > 0 else 0`
  (airflow_dag.py 171), Python float division modelled exactly. -/
  qualityFrac : ℚ
  /-- Whether the low-quality warning (airflow_dag.py 174-175) was
  printed. -/
  lowQualityWarning : Bool
deriving DecidableEq, Repr

/-- The validator's quality fraction (airflow_dag.py 168-171):
`valid_posts / post_count if post_count > 0 else 0`, where `valid_posts`
counts rows with `word_count > 0`. -/
def qualityFracOf (s : Store) : ℚ :=
  if s.posts.length > 0 then
    (((s.posts.filter (fun p => p.word_count > 0)).length : ℚ) / s.posts.length)
  else 0

/-- `validate_pipeline` (airflow_dag.py 141-180): count posts and tags,
raise `ValueError` (the spec's `InsufficientDataError`) when fewer than
100 posts, otherwise compute the quality fraction of posts with
`word_count > 0` and warn (without failing) when it is below 0.8. -/
def validate_pipeline (s : Store) : Except String ValidationResult :=
  let post_count := s.posts.length
  let tag_count := s.tags.length
  if post_count < 100 then
    .error "Insufficient records"
  else
    let q : ℚ := qualityFracOf s
    .ok { post_count := post_count
          tag_count := tag_count
          qualityFrac := q
          lowQualityWarning := q < 0.8 }

/-! ## Pipeline structure lemmas -/

/-- The row-wise composite of cleaning steps 3-6 (defaults, text cleanup,
post-type standardisation, derived features), as applied by `clean_all`
to each deduplicated, non-empty row. -/
def processRow (r : RawRecord) : CleanRecord :=
  addDerivedFeatures (standardizePostTypes (cleanTextRow (handleMissingValues r)))

theorem processRow_post_url (r : RawRecord) :
    (processRow r).post_url = r.post_url := rfl

theorem processRow_tags (r : RawRecord) :
    (processRow r).tags = (handleMissingValues r).tags := rfl

theorem processRow_tag_count (r : RawRecord) :
    (processRow r).tag_count = count_tags (handleMissingValues r).tags := rfl

theorem processRow_tags_str (r : RawRecord) :
    (processRow r).tags_str = tags_to_string (handleMissingValues r).tags := rfl

theorem processRow_post_text (r : RawRecord) :
    (processRow r).post_text = (r.post_text.map pyStrip).map collapseWs := rfl

theorem processRow_post_text_clean (r : RawRecord) :
    (processRow r).post_text_clean =
      collapseWs (pyStrip (filterAllowed (removeUrls
        (pyStr ((r.post_text.map pyStrip).map collapseWs))))) := rfl

/-- `clean_all` in one equation: dedup, drop empties, then the row-wise
composite, then the quality filter. -/
theorem clean_all_eq (rs : List RawRecord) :
    clean_all rs =
      filterQualityPosts 5 10000
        ((removeEmptyPosts (removeDuplicates rs)).map processRow) := by
  simp only [clean_all, filterQualityPosts, List.map_map]
  rfl

/-- Membership in the cleaned output: exactly the images of deduplicated
non-empty rows that pass the word-count band. -/
theorem mem_clean_all_iff {rs : List RawRecord} {r' : CleanRecord} :
    r' ∈ clean_all rs ↔
      ∃ r ∈ removeEmptyPosts (removeDuplicates rs),
        r' = processRow r ∧ 5 ≤ r'.word_count ∧ r'.word_count ≤ 10000 := by
  rw [clean_all_eq]
  simp only [filterQualityPosts, List.mem_filter, List.mem_map, Bool.and_eq_true,
    decide_eq_true_eq]
  constructor
  · rintro ⟨⟨r, hr, rfl⟩, h5, h10⟩
    exact ⟨r, hr, rfl, h5, h10⟩
  · rintro ⟨r, hr, rfl, h5, h10⟩
    exact ⟨⟨r, hr, rfl⟩, h5, h10⟩

/-! ## Deduplication lemmas -/

theorem dropDuplicatesGo_sublist :
    ∀ (rs : List RawRecord) (seen : List String), List.Sublist (dropDuplicatesGo rs seen) rs
  | [], _ => List.Sublist.refl []
  | r :: rs, seen => by
    unfold dropDuplicatesGo
    by_cases h : r.post_url ∈ seen
    · simp only [if_pos h]
      exact (dropDuplicatesGo_sublist rs seen).cons r
    · simp only [if_neg h]
      exact (dropDuplicatesGo_sublist rs (r.post_url :: seen)).cons₂ r

theorem removeDuplicates_sublist (rs : List RawRecord) :
    List.Sublist (removeDuplicates rs) rs :=
  dropDuplicatesGo_sublist rs []

theorem removeEmptyPosts_sublist (rs : List RawRecord) :
    List.Sublist (removeEmptyPosts rs) rs :=
  List.filter_sublist rs

/-- A row surviving `remove_empty_posts` has present, nonempty text. -/
theorem mem_removeEmptyPosts {rs : List RawRecord} {r : RawRecord}
    (h : r ∈ removeEmptyPosts rs) : ∃ t, r.post_text = some t ∧ t.length > 0 := by
  have := (List.mem_filter.mp h).2
  match htext : r.post_text with
  | none => rw [htext] at this; simp at this
  | some t =>
    rw [htext] at this
    simp only [gt_iff_lt, decide_eq_true_eq] at this
    exact ⟨t, rfl, this⟩

/-- Every row emitted by the dedup scan has an unseen key. -/
theorem not_seen_of_mem_dropDuplicatesGo :
    ∀ {rs : List RawRecord} {seen : List String} {r : RawRecord},
      r ∈ dropDuplicatesGo rs seen → r.post_url ∉ seen := by
  intro rs
  induction rs with
  | nil => intro seen r h; simp [dropDuplicatesGo] at h
  | cons c cs ih =>
    intro seen r h
    unfold dropDuplicatesGo at h
    by_cases hc : c.post_url ∈ seen
    · rw [if_pos hc] at h
      exact ih h
    · rw [if_neg hc] at h
      rcases List.mem_cons.mp h with rfl | h
      · exact hc
      · intro hmem
        exact ih h (List.mem_cons_of_mem _ hmem)

/-- A row surviving the dedup scan is the first row of the input carrying
its `post_url`. -/
theorem find?_of_mem_dropDuplicatesGo :
    ∀ {rs : List RawRecord} {seen : List String} {r : RawRecord},
      r ∈ dropDuplicatesGo rs seen →
      rs.find? (fun x => x.post_url == r.post_url) = some r := by
  intro rs
  induction rs with
  | nil => intro seen r h; simp [dropDuplicatesGo] at h
  | cons c cs ih =>
    intro seen r h
    have hnotseen := not_seen_of_mem_dropDuplicatesGo h
    unfold dropDuplicatesGo at h
    by_cases hc : c.post_url ∈ seen
    · rw [if_pos hc] at h
      have hne : c.post_url ≠ r.post_url := fun he => hnotseen (he ▸ hc)
      rw [List.find?_cons_of_neg _ (by simp [hne]), ih h]
    · rw [if_neg hc] at h
      rcases List.mem_cons.mp h with rfl | h
      · rw [List.find?_cons_of_pos _ (by simp)]
      · have hne : c.post_url ≠ r.post_url := by
          intro he
          exact not_seen_of_mem_dropDuplicatesGo h (he ▸ List.mem_cons_self _ _)
        rw [List.find?_cons_of_neg _ (by simp [hne]), ih h]

/-- With `u` already seen, the dedup scan emits no row keyed `u`. -/
theorem countP_dropDuplicatesGo_seen :
    ∀ {rs : List RawRecord} {seen : List String} {u : String}, u ∈ seen →
      (dropDuplicatesGo rs seen).countP (fun r => r.post_url == u) = 0 := by
  intro rs
  induction rs with
  | nil => intro seen u _; simp [dropDuplicatesGo]
  | cons c cs ih =>
    intro seen u hu
    unfold dropDuplicatesGo
    by_cases hc : c.post_url ∈ seen
    · rw [if_pos hc]; exact ih hu
    · rw [if_neg hc, List.countP_cons, ih (List.mem_cons_of_mem _ hu)]
      have hne : c.post_url ≠ u := fun he => hc (he ▸ hu)
      simp [hne]

/-- The dedup scan emits at most one row per key. -/
theorem countP_dropDuplicatesGo_le_one :
    ∀ {rs : List RawRecord} {seen : List String} {u : String},
      (dropDuplicatesGo rs seen).countP (fun r => r.post_url == u) ≤ 1 := by
  intro rs
  induction rs with
  | nil => intro seen u; simp [dropDuplicatesGo]
  | cons c cs ih =>
    intro seen u
    unfold dropDuplicatesGo
    by_cases hc : c.post_url ∈ seen
    · rw [if_pos hc]; exact ih
    · rw [if_neg hc, List.countP_cons]
      by_cases hcu : c.post_url = u
      · rw [countP_dropDuplicatesGo_seen (hcu ▸ List.mem_cons_self _ _)]
        simp [hcu]
      · simpa [hcu] using ih

theorem countP_removeDuplicates_le_one (rs : List RawRecord) (u : String) :
    (removeDuplicates rs).countP (fun r => r.post_url == u) ≤ 1 :=
  countP_dropDuplicatesGo_le_one

/-! ## Concrete rows used in counterexamples and witnesses -/

/-- A raw row whose `post_text` is the empty string. -/
def rowEmptyText : RawRecord :=
  { post_url := "u", post_text := some "", post_type := some "text",
    notes_count := some 5, image_url := none, tags := .nan,
    timestamp := "2024-01-01T10:00:00" }

/-- A raw row sharing `rowEmptyText`'s URL, with five words of text. -/
def rowGoodText : RawRecord :=
  { rowEmptyText with post_text := some "one two three four five" }

/-- A raw row whose text contains a doubled space. -/
def rowDoubleSpace : RawRecord :=
  { post_url := "w", post_text := some "a  b c d e f", post_type := some "text",
    notes_count := some 0, image_url := some "", tags := .nan,
    timestamp := "2024-02-02T09:30:00" }

/-- A raw row with the spec's tag example `["Art", "art", " Design "]`. -/
def rowTagsExample : RawRecord :=
  { post_url := "t", post_text := some "one two three four five",
    post_type := some "photo", notes_count := some 42,
    image_url := some "img.png", tags := .listLit ["Art", "art", " Design "],
    timestamp := "2024-03-03T12:00:00" }

/-! ## C3 — engagement classification boundaries -/

/-- C3: for every integer `n ≥ 0`, `categorize_engagement` returns exactly
one of the four labels, with exact boundaries: `n = 0 → no_engagement`,
`0 < n < 10 → low`, `10 ≤ n < 100 → medium`, `n ≥ 100 → high`. -/
theorem categorize_engagement_boundaries (n : Int) (h : 0 ≤ n) :
    (categorize_engagement n = "no_engagement" ∨ categorize_engagement n = "low" ∨
      categorize_engagement n = "medium" ∨ categorize_engagement n = "high") ∧
    (n = 0 → categorize_engagement n = "no_engagement") ∧
    (0 < n → n < 10 → categorize_engagement n = "low") ∧
    (10 ≤ n → n < 100 → categorize_engagement n = "medium") ∧
    (100 ≤ n → categorize_engagement n = "high") := by
  unfold categorize_engagement
  refine ⟨?_, ?_, ?_, ?_, ?_⟩ <;> split_ifs with h0 h10 h100 <;> simp_all
  omega

/-- Witness for C3 at the boundary values 0, 9, 10, 99, 100. -/
theorem categorize_engagement_boundaries_witness :
    ((0:Int) ≤ 10 ∧ categorize_engagement 10 = "medium") ∧
    categorize_engagement 0 = "no_engagement" ∧
    categorize_engagement 9 = "low" ∧
    categorize_engagement 99 = "medium" ∧
    categorize_engagement 100 = "high" :=
  ⟨⟨by decide, ((categorize_engagement_boundaries 10 (by decide)).2.2.2.1 (by decide)
      (by decide))⟩,
    by decide, by decide, by decide, by decide⟩

/-! ## C4 — tag extraction in the cleaner

The claim attributes trimming, lowercasing and deduplication to the
cleaner's tag features.  `count_tags` and `tags_to_string`
(cleaner.py 76-101) do none of that: they `eval` the literal and use the
raw list (its length, and a verbatim `', '.join`).  The trimming,
lowercasing and deduplication happen only in the loader's tag tables
(`load_tags`, loader.py 128-143), never in the per-record
`tag_count`/`tags_str`. -/

/-- C4 counterexample: the spec's own example `["Art", "art", " Design "]`
yields `tag_count = 3` (not the canonical-set size 2) and a verbatim
comma-join (not the canonical `"art, design"`). -/
theorem count_tags_no_canonicalization :
    count_tags (.listLit ["Art", "art", " Design "]) = 3 ∧
    count_tags (.listLit ["Art", "art", " Design "]) ≠ 2 ∧
    tags_to_string (.listLit ["Art", "art", " Design "]) = "Art, art,  Design " ∧
    tags_to_string (.listLit ["Art", "art", " Design "]) ≠ "art, design" := by
  refine ⟨rfl, by decide, rfl, by decide⟩

/-- C4 (amended): for every record surviving cleaning, `tag_count` is the
raw length of the `eval`-decoded tag list and `tags_str` its verbatim
comma-join — no trimming, lowercasing or deduplication is applied. -/
theorem clean_all_tag_features (rs : List RawRecord) (r' : CleanRecord)
    (h : r' ∈ clean_all rs) :
    ∃ raw ∈ rs,
      r'.tag_count = count_tags (handleMissingValues raw).tags ∧
      r'.tags_str = tags_to_string (handleMissingValues raw).tags ∧
      ∀ ts, raw.tags = .listLit ts →
        r'.tag_count = ts.length ∧ r'.tags_str = String.intercalate ", " ts := by
  rcases mem_clean_all_iff.mp h with ⟨raw, hmem, rfl, -, -⟩
  refine ⟨raw, ?_, processRow_tag_count raw, processRow_tags_str raw, ?_⟩
  · exact (removeDuplicates_sublist rs).subset
      ((removeEmptyPosts_sublist (removeDuplicates rs)).subset hmem)
  · intro ts hts
    constructor
    · rw [processRow_tag_count]
      simp [handleMissingValues, hts, count_tags]
    · rw [processRow_tags_str]
      simp [handleMissingValues, hts, tags_to_string]

/-- Witness for C4 (amended) on `rowTagsExample`. -/
theorem clean_all_tag_features_witness :
    ∃ raw ∈ [rowTagsExample],
      (processRow rowTagsExample).tag_count =
        count_tags (handleMissingValues raw).tags ∧
      (processRow rowTagsExample).tags_str =
        tags_to_string (handleMissingValues raw).tags ∧
      ∀ ts, raw.tags = .listLit ts →
        (processRow rowTagsExample).tag_count = ts.length ∧
        (processRow rowTagsExample).tags_str = String.intercalate ", " ts :=
  clean_all_tag_features [rowTagsExample] (processRow rowTagsExample) (List.Mem.head _)

/-! ## C1 — order of the cleaning steps

`clean_all` (cleaner.py 145-177) runs `remove_duplicates` as step 1 and
`remove_empty_posts` as step 2 — the opposite of the claimed order, and
observably so: when the first record of a duplicate pair has empty text,
the code drops both, while the claimed order keeps the second. -/

/-- C1 counterexample: on `[rowEmptyText, rowGoodText]` (same URL, first
has empty text) the code's pipeline keeps nothing — dedup first keeps the
empty-text row, which the empty filter then drops — while the claim's
order (empty filter first, then dedup) keeps one record.  The pipeline is
therefore not the claimed step order. -/
theorem clean_all_order_counterexample :
    (clean_all [rowEmptyText, rowGoodText]).length = 0 ∧
    (cleanAllSpecOrder [rowEmptyText, rowGoodText]).length = 1 ∧
    clean_all [rowEmptyText, rowGoodText] ≠
      cleanAllSpecOrder [rowEmptyText, rowGoodText] := by
  refine ⟨rfl, rfl, ?_⟩
  intro h
  exact absurd (congrArg List.length h) (by decide)

/-- C1 (amended): the cleaning pipeline applies its steps in exactly this
order — (1) deduplicate by `post_url` keeping the first occurrence,
(2) drop records with empty text, (3) missing-value defaults, (4) text
cleanup, (5) post-type standardization, (6) derived-feature computation,
(7) word-count band filter; and this order is not interchangeable with
the spec's (its first two steps swapped). -/
theorem clean_all_step_order :
    (∀ rs : List RawRecord,
      clean_all rs =
        filterQualityPosts 5 10000
          (((((removeEmptyPosts (removeDuplicates rs)).map
            handleMissingValues).map cleanTextRow).map
              standardizePostTypes).map addDerivedFeatures)) ∧
    ¬ ∀ rs : List RawRecord, clean_all rs = cleanAllSpecOrder rs := by
  constructor
  · intro rs; rfl
  · intro h
    have := congrArg List.length (h [rowEmptyText, rowGoodText])
    exact absurd this (by decide)

/-! ## C2 — deduplication: first occurrence wins -/

/-- C2 counterexample: the input `[rowEmptyText, rowGoodText]` contains
two records sharing `post_url = "u"`, yet no record survives cleaning
(dedup keeps the first, whose empty text is then dropped) — not "exactly
one". -/
theorem clean_all_dedup_counterexample :
    [rowEmptyText, rowGoodText].countP (fun r => r.post_url == "u") = 2 ∧
    clean_all [rowEmptyText, rowGoodText] = [] := by
  exact ⟨rfl, rfl⟩

/-- C2 (amended): for every input containing two records sharing a
`post_url`, at most one record with that URL survives cleaning, and any
survivor is the cleaned form of the record appearing first in input order
with that URL. -/
theorem clean_all_dedup_first_wins (rs : List RawRecord) (u : String)
    (_hdup : 2 ≤ rs.countP (fun r => r.post_url == u)) :
    ((clean_all rs).filter (fun r => r.post_url == u)).length ≤ 1 ∧
    ∀ r' ∈ clean_all rs, r'.post_url = u →
      ∃ raw, rs.find? (fun x => x.post_url == u) = some raw ∧
        r' = processRow raw := by
  constructor
  · rw [clean_all_eq, filterQualityPosts]
    calc ((((removeEmptyPosts (removeDuplicates rs)).map processRow).filter
            (fun r => 5 ≤ r.word_count && r.word_count ≤ 10000)).filter
              (fun r => r.post_url == u)).length
        ≤ (((removeEmptyPosts (removeDuplicates rs)).map processRow).filter
            (fun r => r.post_url == u)).length := by
          exact ((List.filter_sublist _).filter _).length_le
      _ = ((removeEmptyPosts (removeDuplicates rs)).map processRow).countP
            (fun r => r.post_url == u) := (List.countP_eq_length_filter _ _).symm
      _ = (removeEmptyPosts (removeDuplicates rs)).countP
            (fun r => r.post_url == u) := by
          rw [List.countP_map]
          congr 1
      _ ≤ (removeDuplicates rs).countP (fun r => r.post_url == u) :=
          (removeEmptyPosts_sublist _).countP_le _
      _ ≤ 1 := countP_removeDuplicates_le_one rs u
  · intro r' hr' hurl
    rcases mem_clean_all_iff.mp hr' with ⟨raw, hmem, rfl, -, -⟩
    have hmem' : raw ∈ removeDuplicates rs :=
      (removeEmptyPosts_sublist (removeDuplicates rs)).subset hmem
    have hfind := @find?_of_mem_dropDuplicatesGo rs [] raw hmem'
    have hu : raw.post_url = u := hurl
    rw [hu] at hfind
    exact ⟨raw, hfind, rfl⟩

/-- Witness for C2 (amended) on `[rowGoodText, rowEmptyText]` (two records
sharing URL `"u"`, the good-text one first). -/
theorem clean_all_dedup_first_wins_witness :
    2 ≤ [rowGoodText, rowEmptyText].countP (fun r => r.post_url == "u") ∧
    (((clean_all [rowGoodText, rowEmptyText]).filter
        (fun r => r.post_url == "u")).length ≤ 1 ∧
      ∀ r' ∈ clean_all [rowGoodText, rowEmptyText], r'.post_url = "u" →
        ∃ raw, [rowGoodText, rowEmptyText].find? (fun x => x.post_url == "u") =
            some raw ∧ r' = processRow raw) :=
  ⟨by decide, clean_all_dedup_first_wins [rowGoodText, rowEmptyText] "u" (by decide)⟩

/-! ## C5 — is `post_text` preserved unmodified?

`clean_text` (cleaner.py 41-42) mutates the `post_text` column in place:
it strips surrounding whitespace and collapses internal whitespace runs
before deriving `post_text_clean`.  The original text is therefore NOT
preserved verbatim. -/

/-- C5 counterexample: `rowDoubleSpace` has `post_text = "a  b c d e f"`;
its surviving cleaned record carries `post_text = "a b c d e f"` — the
doubled space is gone, so `post_text` was modified by the pipeline. -/
theorem clean_all_post_text_modified :
    (clean_all [rowDoubleSpace]).map CleanRecord.post_text =
      [some "a b c d e f"] ∧
    rowDoubleSpace.post_text = some "a  b c d e f" ∧
    (clean_all [rowDoubleSpace]).map CleanRecord.post_text ≠
      [rowDoubleSpace.post_text] := by
  refine ⟨rfl, rfl, ?_⟩
  intro h
  rw [show (clean_all [rowDoubleSpace]).map CleanRecord.post_text =
      [some "a b c d e f"] from rfl] at h
  exact absurd h (by decide)

/-- C5 (amended): `post_text` is whitespace-normalised in place (stripped,
runs collapsed) but otherwise preserved; the further URL-stripping and
punctuation restriction apply only to the derived `post_text_clean`,
which is computed from the normalised `post_text`. -/
theorem clean_all_post_text_normalised (rs : List RawRecord)
    (r' : CleanRecord) (h : r' ∈ clean_all rs) :
    ∃ raw ∈ rs, ∃ t, raw.post_text = some t ∧
      r'.post_text = some (collapseWs (pyStrip t)) ∧
      r'.post_text_clean =
        collapseWs (pyStrip (filterAllowed (removeUrls
          (collapseWs (pyStrip t))))) := by
  rcases mem_clean_all_iff.mp h with ⟨raw, hmem, rfl, -, -⟩
  have hraw : raw ∈ rs :=
    (removeDuplicates_sublist rs).subset
      ((removeEmptyPosts_sublist (removeDuplicates rs)).subset hmem)
  rcases mem_removeEmptyPosts hmem with ⟨t, htext, -⟩
  refine ⟨raw, hraw, t, htext, ?_, ?_⟩
  · rw [processRow_post_text, htext]; rfl
  · rw [processRow_post_text_clean, htext]; rfl

/-- Witness for C5 (amended) on `rowDoubleSpace`. -/
theorem clean_all_post_text_normalised_witness :
    ∃ raw ∈ [rowDoubleSpace], ∃ t, raw.post_text = some t ∧
      (processRow rowDoubleSpace).post_text = some (collapseWs (pyStrip t)) ∧
      (processRow rowDoubleSpace).post_text_clean =
        collapseWs (pyStrip (filterAllowed (removeUrls
          (collapseWs (pyStrip t))))) :=
  clean_all_post_text_normalised [rowDoubleSpace] (processRow rowDoubleSpace)
    (List.Mem.head _)

/-! ## C6 — missing `tags` column

`handle_missing_values` (cleaner.py 64) evaluates
`self.df['tags'].fillna('[]')`; a DataFrame without a `tags` column raises
`KeyError: 'tags'` on that access, so cleaning a CSV missing the column
aborts rather than completing.  (The absent-column tolerance the spec
describes exists only in `load_posts`, loader.py 89-91.) -/

/-- A well-formed raw row whose `tags` cell is missing (NaN). -/
def rowNanTags : RawRecord :=
  { post_url := "n", post_text := some "alpha beta gamma delta epsilon",
    post_type := none, notes_count := none, image_url := none,
    tags := .nan, timestamp := "2024-04-04T08:00:00" }

/-- C6 counterexample: a one-row raw table without a `tags` column does
not clean successfully — the pipeline aborts with `KeyError: tags`. -/
theorem clean_all_table_missing_tags_column :
    clean_all_table { hasTagsColumn := false, rows := [rowNanTags] } =
      .error "KeyError: tags" ∧
    clean_all [rowNanTags] ≠ [] := by
  refine ⟨rfl, ?_⟩
  intro h
  exact absurd (congrArg List.length h) (by decide)

/-- C6 (amended): a raw input missing the `tags` column aborts cleaning
with a `KeyError`; it is inputs whose `tags` column is present but null
in every row that clean successfully, with every surviving record having
`tag_count = 0` and `tags_str = ""`. -/
theorem clean_all_nan_tags (rows : List RawRecord)
    (hAll : ∀ r ∈ rows, r.tags = .nan) :
    clean_all_table { hasTagsColumn := true, rows := rows } =
      .ok (clean_all rows) ∧
    ∀ r' ∈ clean_all rows, r'.tag_count = 0 ∧ r'.tags_str = "" := by
  refine ⟨rfl, ?_⟩
  intro r' hr'
  rcases mem_clean_all_iff.mp hr' with ⟨raw, hmem, rfl, -, -⟩
  have hraw : raw ∈ rows :=
    (removeDuplicates_sublist rows).subset
      ((removeEmptyPosts_sublist (removeDuplicates rows)).subset hmem)
  have htags := hAll raw hraw
  constructor
  · rw [processRow_tag_count]
    simp [handleMissingValues, htags, count_tags]
  · rw [processRow_tags_str]
    simp only [handleMissingValues, htags, tags_to_string]
    rfl

/-- Witness for C6 (amended) on the one-row table `[rowNanTags]`. -/
theorem clean_all_nan_tags_witness :
    (∀ r ∈ [rowNanTags], r.tags = TagsCell.nan) ∧
    (clean_all_table { hasTagsColumn := true, rows := [rowNanTags] } =
        .ok (clean_all [rowNanTags]) ∧
      ∀ r' ∈ clean_all [rowNanTags], r'.tag_count = 0 ∧ r'.tags_str = "") :=
  ⟨by decide, clean_all_nan_tags [rowNanTags] (by decide)⟩

/-! ## C7 — the validation gate -/

/-- C7: validation fails (raises) exactly when the post count is below
100; otherwise it returns normally, with the low-quality warning recorded
iff the quality fraction is below 0.8 — the warning never changes the
pass verdict, which depends on the post count alone. -/
theorem validate_pipeline_gate (s : Store) :
    (s.posts.length < 100 →
      validate_pipeline s = .error "Insufficient records") ∧
    (100 ≤ s.posts.length →
      validate_pipeline s = .ok
        { post_count := s.posts.length
          tag_count := s.tags.length
          qualityFrac := qualityFracOf s
          lowQualityWarning := qualityFracOf s < 0.8 }) := by
  unfold validate_pipeline
  constructor
  · intro h
    rw [if_pos h]
  · intro h
    rw [if_neg (by omega)]

/-- A persisted post row with a given URL and word count (all other
columns immaterial to the validator). -/
def mkPost (url : String) (wc : Nat) : CleanRecord :=
  { post_url := url, post_text := some "x", post_text_clean := "x",
    post_type := "text", notes_count := 1, image_url := "",
    tags := .listLit [], timestamp := "2024-01-01T00:00:00",
    word_count := wc, char_count := 1, has_image := 0, tag_count := 0,
    tags_str := "", engagement_level := "low", scrape_date := "2024-01-01" }

/-- A store with 100 posts, 79 of which have `word_count > 0`. -/
def store100posts79valid : Store :=
  { postsHasId := false,
    posts := (List.range 79).map (fun i => mkPost (toString i) 5) ++
      (List.range 21).map (fun i => mkPost ("z" ++ toString i) 0),
    tags := [], post_tags := [] }

/-- A store with 99 posts, all of positive word count. -/
def store99posts : Store :=
  { postsHasId := false,
    posts := (List.range 99).map (fun i => mkPost (toString i) 5),
    tags := [], post_tags := [] }

/-- Witness for C7 at the claim's own boundary stores: 99 posts fail
regardless of quality; 100 posts with 79 valid pass with fraction 79/100
and the warning set. -/
theorem validate_pipeline_gate_witness :
    validate_pipeline store99posts = .error "Insufficient records" ∧
    validate_pipeline store100posts79valid = .ok
      { post_count := 100, tag_count := 0, qualityFrac := 79 / 100,
        lowQualityWarning := true } := by
  have hq : qualityFracOf store100posts79valid = 79 / 100 := by
    unfold qualityFracOf
    rw [if_pos (by decide),
      show (store100posts79valid.posts.filter
        (fun p => p.word_count > 0)).length = 79 from by decide,
      show store100posts79valid.posts.length = 100 from by decide]
    norm_num
  refine ⟨(validate_pipeline_gate store99posts).1 (by decide), ?_⟩
  rw [(validate_pipeline_gate store100posts79valid).2 (by decide)]
  have h100 : store100posts79valid.posts.length = 100 := by decide
  have hwarn : decide ((79 : ℚ) / 100 < 0.8) = true := by
    rw [decide_eq_true_eq]
    norm_num
  have htag : store100posts79valid.tags.length = 0 := rfl
  simp only [h100, hq, hwarn, htag]

/-! ## C8 — idempotent reload

`to_sql(..., if_exists='replace')` makes the second `load_posts` replace
the first run's rows with the identical snapshot, and `load_tags` clears
its two tables before rebuilding on every run, so repeated loads of one
snapshot produce identical counts.  (Because the replace drops the `id`
column, the rebuild's `SELECT id FROM posts` raises and is caught per
row, leaving the tag tables empty — identically so on every run.) -/

theorem loadTagsRow_stuck_without_id (s : Store) (h : s.postsHasId = false)
    (acc : List String × List (Nat × Nat)) (row : CleanRecord) :
    loadTagsRow s acc row = acc := by
  unfold loadTagsRow
  rcases hr : row.tags with _ | ts | str | _
  · rfl
  · rcases ts with _ | ⟨t, ts⟩
    · rfl
    · simp [decodeTagsCell, lookupPostId, h]
  · simp [decodeTagsCell, lookupPostId, h]
  · simp [decodeTagsCell]

theorem load_tags_empty_without_id (df : List CleanRecord) (s : Store)
    (h : s.postsHasId = false) :
    (load_tags df s).tags = [] ∧ (load_tags df s).post_tags = [] := by
  have hfold : ∀ (l : List CleanRecord) (acc : List String × List (Nat × Nat)),
      l.foldl (loadTagsRow s) acc = acc := by
    intro l
    induction l with
    | nil => intro acc; rfl
    | cons r l ih =>
      intro acc
      rw [List.foldl_cons, loadTagsRow_stuck_without_id s h, ih]
  unfold load_tags
  rw [hfold]
  exact ⟨rfl, rfl⟩

/-- C8: loading the same cleaned snapshot twice yields identical post,
tag, and post-tag link counts both times — the posts table is replaced
wholesale and the tag/link tables are cleared and rebuilt each run, so
load is idempotent with respect to a single snapshot (the post rows
themselves are identical, not just their count). -/
theorem load_all_idempotent (df : List CleanRecord) (s : Store) :
    ((load_all df (load_all df s)).posts.length = (load_all df s).posts.length ∧
      (load_all df (load_all df s)).tags.length = (load_all df s).tags.length ∧
      (load_all df (load_all df s)).post_tags.length =
        (load_all df s).post_tags.length) ∧
    (load_all df (load_all df s)).posts = (load_all df s).posts := by
  have h1 := load_tags_empty_without_id df
    (load_posts df (create_tables s)) rfl
  have h2 := load_tags_empty_without_id df
    (load_posts df (create_tables (load_all df s))) rfl
  refine ⟨⟨rfl, ?_, ?_⟩, rfl⟩
  · show (load_tags df _).tags.length = (load_tags df _).tags.length
    rw [h1.1, h2.1]
  · show (load_tags df _).post_tags.length = (load_tags df _).post_tags.length
    rw [h1.2, h2.2]

/-! ## C9 — summary-statistics defaults

`generate_summary_statistics` never raises, but the only substituted
default is `most_common_type = 'unknown'`: SQLite's `AVG`/`SUM` yield
`NULL` over an empty `posts` table and the code inserts those `None`s
as they are, not `0`. -/

/-- C9 counterexample: over an empty posts table the appended row stores
`NULL` (not the claimed default `0`) for the numeric aggregates. -/
theorem summary_statistics_null_not_zero :
    (generate_summary_statistics []).avg_word_count = none ∧
    (generate_summary_statistics []).avg_word_count ≠ some 0 ∧
    (generate_summary_statistics []).posts_with_images ≠ some 0 ∧
    (generate_summary_statistics []).most_common_type = "unknown" := by
  refine ⟨rfl, by decide, by decide, rfl⟩

/-- C9 (amended): summary-statistics generation is total — it never
aborts the load run; on an empty posts table the appended row carries
`total_posts = 0`, `NULL` numeric aggregates and the `'unknown'` default
for the most common type, and on a nonempty table every aggregate is
computed (non-`NULL`). -/
theorem generate_summary_statistics_defaults (posts : List CleanRecord) :
    (generate_summary_statistics posts).total_posts = posts.length ∧
    (posts = [] → generate_summary_statistics posts =
      { total_posts := 0, avg_word_count := none, avg_notes := none,
        posts_with_images := none, most_common_type := "unknown" }) ∧
    (posts ≠ [] →
      (generate_summary_statistics posts).avg_word_count ≠ none ∧
      (generate_summary_statistics posts).avg_notes ≠ none ∧
      (generate_summary_statistics posts).posts_with_images ≠ none) := by
  refine ⟨rfl, ?_, ?_⟩
  · rintro rfl
    rfl
  · intro h
    have hlen : posts.length ≠ 0 := by
      simpa [List.length_eq_zero] using h
    unfold generate_summary_statistics
    refine ⟨?_, ?_, ?_⟩ <;> simp [hlen]

/-- Witness for C9 (amended) on the empty and a one-row posts table. -/
theorem generate_summary_statistics_defaults_witness :
    generate_summary_statistics ([] : List CleanRecord) =
      { total_posts := 0, avg_word_count := none, avg_notes := none,
        posts_with_images := none, most_common_type := "unknown" } ∧
    (generate_summary_statistics [mkPost "p" 5]).avg_word_count ≠ none :=
  ⟨(generate_summary_statistics_defaults []).2.1 rfl,
    ((generate_summary_statistics_defaults [mkPost "p" 5]).2.2 (by decide)).1⟩

/-! ## C10 — survivors' word counts and the loaded store's quality

Every survivor of the default quality filter has `word_count ≥ 5 > 0`, so
a store loaded from a default clean run has quality fraction exactly 1 —
except that the fraction is defined as 0 for an empty store by the
division guard, which falsifies the unconditional "exactly 1". -/

/-- C10 counterexample: a default clean run over an empty input loads an
empty store, whose quality fraction is 0 (the division guard), not 1. -/
theorem quality_frac_zero_on_empty_run :
    clean_all ([] : List RawRecord) = [] ∧
    qualityFracOf (load_all (clean_all []) freshStore) = 0 ∧
    (0 : ℚ) ≠ 1 := by
  refine ⟨rfl, rfl, by norm_num⟩

/-- C10 (amended): every record surviving a default clean run has
`word_count ≥ 5`; every post persisted from such a snapshot has
`word_count > 0`; and provided at least one record survived, the quality
fraction of the freshly loaded store is exactly 1. -/
theorem clean_all_quality_frac_one (rs : List RawRecord) (s : Store)
    (h : clean_all rs ≠ []) :
    (∀ r' ∈ clean_all rs, 5 ≤ r'.word_count) ∧
    (∀ p ∈ (load_all (clean_all rs) s).posts, 0 < p.word_count) ∧
    qualityFracOf (load_all (clean_all rs) s) = 1 := by
  have h5 : ∀ r' ∈ clean_all rs, 5 ≤ r'.word_count := by
    intro r' hr'
    exact (mem_clean_all_iff.mp hr').choose_spec.2.2.1
  have hposts : (load_all (clean_all rs) s).posts = clean_all rs := rfl
  refine ⟨h5, ?_, ?_⟩
  · intro p hp
    rw [hposts] at hp
    exact lt_of_lt_of_le (by norm_num) (h5 p hp)
  · unfold qualityFracOf
    rw [hposts]
    have hlen : (clean_all rs).length ≠ 0 := by
      simpa [List.length_eq_zero] using h
    have hfilter : (clean_all rs).filter (fun p => p.word_count > 0) =
        clean_all rs := by
      apply List.filter_eq_self.mpr
      intro p hp
      simpa using lt_of_lt_of_le (by norm_num) (h5 p hp)
    rw [if_pos (by omega), hfilter]
    exact div_self (by exact_mod_cast hlen)

/-- Witness for C10 (amended) on the one-record run `[rowGoodText]` into
a fresh store. -/
theorem clean_all_quality_frac_one_witness :
    clean_all [rowGoodText] ≠ [] ∧
    qualityFracOf (load_all (clean_all [rowGoodText]) freshStore) = 1 :=
  ⟨fun h => absurd (congrArg List.length h) (by decide),
    (clean_all_quality_frac_one [rowGoodText] freshStore
      (fun h => absurd (congrArg List.length h) (by decide))).2.2⟩

end SIS2

